import Mathlib

/-!
Verification of the AI-Career-Elevate backend core: the deterministic ATS
(Applicant Tracking System) resume checker (`backend/app/agents/ats_checker.py`)
and the sandboxed tool registry / executor
(`backend/app/tools/registry.py`, `backend/app/tools/executor.py`).

Modelling conventions:
* Python `float` scores and weights are modelled exactly as rationals (`ℚ`);
  every constant appearing in the source (0.15, 0.05, 100.0, ...) is a decimal
  rational, so the arithmetic is exact.
* Python strings are Lean `String`s (both are sequences of unicode scalars);
  `str.count`, `str.split`, `str.strip`, `str.lower`, membership `in` are
  implemented below with Python semantics (in particular
  `s.count("") = len(s) + 1`).
* The results of the `re.findall` / `re.search` calls made by the checker are
  supplied through an explicit `RegexFacts` record, consulted exactly at the
  call sites where the source consults `re`; theorems quantify over all such
  records, so they hold whatever the regex engine returns.
* Effectful collaborators (Python `eval` in the calculator, the filesystem in
  the file tools, the worker pool in the executor) are explicit oracle
  parameters; "the implementation is never invoked" is formalised as the
  result being independent of the oracle.
-/

namespace CareerElevate

/-! ## Python string primitives -/

/-- Python whitespace characters used by `str.split()` / `str.strip()`. -/
def pyIsSpace (c : Char) : Bool :=
  c = ' ' || c = '\t' || c = '\n' || c = '\x0d' || c = '\x0b' || c = '\x0c'

/-- Core of Python `str.count`: number of non-overlapping occurrences of
`p` in `s`, scanning left to right.  Python counts the empty pattern once at
every position, giving `len(s) + 1`.  The extra fuel argument (instantiated
with the length of `s`, enough for the scan, which consumes at least one
character per step) makes the recursion structural. -/
def countSubAux : Nat → List Char → List Char → Nat
  | _, s, [] => s.length + 1
  | _, [], _ :: _ => 0
  | 0, _ :: _, _ :: _ => 0
  | fuel + 1, c :: rest, p =>
      if p.isPrefixOf (c :: rest) then
        1 + countSubAux fuel (List.drop (p.length - 1) rest) p
      else
        countSubAux fuel rest p

/-- Python `s.count(p)`. -/
def pyCount (s p : String) : Nat :=
  countSubAux s.data.length s.data p.data

/-- Membership of `p` as a contiguous substring of `s` (Python `p in s`). -/
def containsSub : List Char → List Char → Bool
  | _, [] => true
  | [], _ :: _ => false
  | c :: rest, p => p.isPrefixOf (c :: rest) || containsSub rest p

/-- Python `p in s` for strings. -/
def pyIn (p s : String) : Bool :=
  containsSub s.data p.data

/-- Python `s.strip()`: remove leading and trailing whitespace. -/
def pyStrip (s : String) : String :=
  String.mk (((s.data.dropWhile pyIsSpace).reverse.dropWhile pyIsSpace).reverse)

/-- Worker of Python `s.split()`: accumulates the current word (reversed)
and splits on whitespace runs, dropping empty pieces. -/
def pySplitWsAux : List Char → List Char → List String
  | [], word => if word.isEmpty then [] else [String.mk word.reverse]
  | c :: rest, word =>
      if pyIsSpace c then
        if word.isEmpty then pySplitWsAux rest []
        else String.mk word.reverse :: pySplitWsAux rest []
      else pySplitWsAux rest (c :: word)

/-- Python `s.split()` (no argument): split on whitespace runs, dropping
empty pieces. -/
def pySplitWs (s : String) : List String :=
  pySplitWsAux s.data []

/-- Python `len(s.split())`, the word count used throughout the checker. -/
def pyWordCount (s : String) : Nat :=
  (pySplitWs s).length

/-- Lowercasing of a single character (ASCII; the checker only lowercases
ASCII vocabulary and text). -/
def pyCharLower (c : Char) : Char :=
  if 'A' ≤ c ∧ c ≤ 'Z' then Char.ofNat (c.toNat + 32) else c

/-- Python `s.lower()` (the source only lowercases ASCII text). -/
def pyLower (s : String) : String :=
  String.mk (s.data.map pyCharLower)

/-- Worker of Python `s.split(sep)` for a single-character separator. -/
def pySplitCharAux (sep : Char) : List Char → List Char → List String
  | [], cur => [String.mk cur.reverse]
  | c :: rest, cur =>
      if c = sep then String.mk cur.reverse :: pySplitCharAux sep rest []
      else pySplitCharAux sep rest (c :: cur)

/-- Python `s.split(sep)` for a single-character separator (the source only
splits on a newline). -/
def pySplitChar (sep : Char) (s : String) : List String :=
  pySplitCharAux sep s.data []

/-! ## JSON-like values (the `resume_json` mapping) -/

/-- Shallow model of the JSON-like Python values stored in `resume_json`. -/
inductive PyVal where
  | str (s : String)
  | int (n : Int)
  | float (q : ℚ)
  | bool (b : Bool)
  | list (xs : List PyVal)
  | dict (d : List (String × PyVal))
  | none

/-- The parsed-resume mapping: string keys to JSON-like values (Python dict,
keys unique, insertion order). -/
abbrev ResumeJson := List (String × PyVal)

/-- Worker of `pyUnique`: keeps the first occurrence of every string. -/
def pyUniqueAux : List String → List String → List String
  | [], _ => []
  | x :: rest, seen =>
      if seen.contains x then pyUniqueAux rest seen
      else x :: pyUniqueAux rest (x :: seen)

/-- The distinct elements of a list in first-occurrence order (Python
`set(...)`: the source only uses the size of the set and, in one issue
message, its element list). -/
def pyUnique (xs : List String) : List String :=
  pyUniqueAux xs []

/-- Python `key in d` / `d[key]` on the resume mapping (first binding wins,
as dict keys are unique). -/
def dictLookup (d : ResumeJson) (key : String) : Option PyVal :=
  (d.find? (fun kv => kv.1 = key)).map Prod.snd

/-! ## ATS checker data model (`ats_checker.py`) -/

/-- Confidence levels for ATS analysis (`ATSConfidence`). -/
inductive ATSConfidence where
  | high
  | medium
  | low
deriving DecidableEq, Repr

/-- An ATS issue found in the resume (`ATSIssue`). -/
structure ATSIssue where
  category : String
  severity : String
  message : String
  recommendation : String
deriving DecidableEq, Repr

/-- Detailed breakdown of ATS scoring by category (`ATSBreakdown`).
Python floats are modelled as exact rationals. -/
structure ATSBreakdown where
  file_text_extractable : ℚ
  layout : ℚ
  headers : ℚ
  contact : ℚ
  skills : ℚ
  experience : ℚ
  dates : ℚ
  fonts_images : ℚ
  length : ℚ
deriving DecidableEq, Repr

/-- Complete ATS analysis report (`ATSReport`). -/
structure ATSReport where
  score : ℚ
  breakdown : ATSBreakdown
  issues : List ATSIssue
  recommended_actions : List String
  confidence : ATSConfidence
deriving DecidableEq, Repr

/-- Mutable per-instance state of `ATSChecker` (`self.issues`,
`self.recommended_actions`). -/
structure CheckerState where
  issues : List ATSIssue
  recommended_actions : List String
deriving DecidableEq, Repr

/-- Results of the `re` calls performed by the checker, one field per call
site.  The checker consults this record exactly where the source consults
`re.findall` / `re.search`; every theorem quantifies over the record, so the
results hold for whatever the regex engine computes on the given text. -/
structure RegexFacts where
  /-- Number of `re.findall(email_pattern, raw_text)` matches
  (`_check_contact`). -/
  emailCount : Nat
  /-- Number of `re.findall(phone_pattern, raw_text)` matches
  (`_check_contact`). -/
  phoneCount : Nat
  /-- Whether `re.search(location_patterns[0], raw_text, re.IGNORECASE)`
  finds a city-comma-state match (`_check_contact`). -/
  locationHit1 : Bool
  /-- Whether `re.search(location_patterns[1], raw_text, re.IGNORECASE)`
  finds a two-capitalized-words match (`_check_contact`). -/
  locationHit2 : Bool
  /-- Whether `re.search(location_patterns[2], raw_text, re.IGNORECASE)`
  finds an address-or-location-label match (`_check_contact`). -/
  locationHit3 : Bool
  /-- Number of `re.findall(job_patterns[0], text_lower)` matches
  (`_check_experience`). -/
  jobMatches1 : Nat
  /-- Number of `re.findall(job_patterns[1], text_lower)` matches
  (`_check_experience`). -/
  jobMatches2 : Nat
  /-- Number of matches of the bare-year pattern (`_check_dates`). -/
  dateYearCount : Nat
  /-- Number of matches of the abbreviated month-year pattern
  (`_check_dates`). -/
  dateMonthYearCount : Nat
  /-- Number of matches of the numeric MM/YYYY pattern (`_check_dates`). -/
  dateNumericCount : Nat
  /-- Number of matches of the full month-name pattern (`_check_dates`). -/
  dateFullMonthCount : Nat

/-- Scoring weights for the nine categories (`ATSChecker.WEIGHTS`). -/
def WEIGHTS_file_text_extractable : ℚ := 15 / 100
def WEIGHTS_layout : ℚ := 15 / 100
def WEIGHTS_headers : ℚ := 12 / 100
def WEIGHTS_contact : ℚ := 10 / 100
def WEIGHTS_skills : ℚ := 15 / 100
def WEIGHTS_experience : ℚ := 15 / 100
def WEIGHTS_dates : ℚ := 8 / 100
def WEIGHTS_fonts_images : ℚ := 5 / 100
def WEIGHTS_length : ℚ := 5 / 100

/-- Optimal resume length range in words (`OPTIMAL_LENGTH_MIN/MAX`). -/
def OPTIMAL_LENGTH_MIN : Nat := 400
def OPTIMAL_LENGTH_MAX : Nat := 800

/-- Common ATS-friendly headers (`ATSChecker.ATS_HEADERS`, a Python `set`;
modelled as the list of its literal elements in source order — only set
membership and distinct-count are ever used). -/
def ATS_HEADERS : List String :=
  ["contact", "personal information", "contact information",
   "summary", "professional summary", "objective", "profile",
   "experience", "work experience", "employment", "professional experience",
   "education", "academic background", "qualifications",
   "skills", "technical skills", "core competencies", "expertise",
   "certifications", "certificates", "licenses",
   "projects", "portfolio", "achievements", "accomplishments"]

/-- Common professional skills keywords (`ATSChecker.SKILL_KEYWORDS`). -/
def SKILL_KEYWORDS : List String :=
  ["python", "java", "javascript", "typescript", "react", "angular", "vue",
   "node.js", "express", "django", "flask", "spring", "laravel",
   "sql", "mysql", "postgresql", "mongodb", "redis", "elasticsearch",
   "aws", "azure", "gcp", "docker", "kubernetes", "jenkins",
   "git", "github", "gitlab", "ci/cd", "devops", "agile", "scrum",
   "leadership", "teamwork", "communication", "problem solving",
   "project management", "time management", "analytical", "creative",
   "collaboration", "mentoring", "training", "presentation"]

/-! ## The nine category checks.

Each `_check_*` method appends to `self.issues` and returns a float score;
here each check takes the current issue list and returns
`(score, updated issue list)`. -/

/-- Garbled-text indicators of `_check_file_text_extractable`.  The first
literal in the source is the empty string (Python `raw_text.count("")`
returns `len(raw_text) + 1`). -/
def garbled_indicators : List String := ["", "cid:", "\x00", "\uFFFD"]

/-- Embeds `ATSChecker._check_file_text_extractable`. -/
def _check_file_text_extractable (issues : List ATSIssue) (rawText : String) :
    ℚ × List ATSIssue :=
  if rawText = "" ∨ (pyStrip rawText).length < 50 then
    (0, issues ++ [⟨"file_text_extractable", "critical",
      "Resume text is too short or unreadable",
      "Ensure the resume file is properly formatted and contains sufficient content"⟩])
  else
    let garbledCount := (garbled_indicators.map (fun ind => pyCount rawText ind)).sum
    if (garbledCount : ℚ) > (rawText.length : ℚ) * (5 / 100) then
      (30, issues ++ [⟨"file_text_extractable", "major",
        s!"Text contains {garbledCount} encoding issues",
        "Re-save the resume in a standard format (PDF or DOCX)"⟩])
    else
      let wordCount := pyWordCount rawText
      if wordCount < 100 then
        (60, issues ++ [⟨"file_text_extractable", "major",
          s!"Resume has only {wordCount} words",
          "Add more detailed content to your resume"⟩])
      else
        (100, issues)

/-- Table-drawing indicators of `_check_layout`. -/
def table_indicators : List String :=
  ["|", "┌", "┐", "└", "┘", "├", "┤", "┬", "┴"]

/-- Embeds `ATSChecker._check_layout` (the `resume_json` parameter is unused
in the source as well). -/
def _check_layout (issues : List ATSIssue) (_resumeJson : ResumeJson)
    (rawText : String) : ℚ × List ATSIssue :=
  let score : ℚ := 100
  let tableCount := (table_indicators.map (fun ind => pyCount rawText ind)).sum
  let step1 :=
    if tableCount > 10 then
      (score - 30, issues ++ [⟨"layout", "major",
        "Resume contains complex table formatting",
        "Use simple bullet points and standard formatting instead of tables"⟩])
    else (score, issues)
  let score := step1.1
  let issues := step1.2
  let step2 :=
    if pyIn "  " rawText ∧
        (pyCount rawText "\n" : ℚ) < (pyWordCount rawText : ℚ) * (1 / 10) then
      (score - 10, issues ++ [⟨"layout", "minor",
        "Resume may use column formatting",
        "Use single-column layout for better ATS compatibility"⟩])
    else (score, issues)
  let score := step2.1
  let issues := step2.2
  let lines := pySplitChar '\n' rawText
  let nonEmptyLines := lines.filter (fun line => pyStrip line ≠ "")
  let step3 :=
    if nonEmptyLines.length < 10 then
      (score - 20, issues ++ [⟨"layout", "major",
        "Resume has insufficient structure",
        "Add proper sections and line breaks"⟩])
    else (score, issues)
  let score := step3.1
  let issues := step3.2
  (max 0 score, issues)

/-- Python `repr` of a list of strings, used in issue messages that embed
`list(...)` (the order of Python set iteration is modelled by the fixed
source order of the vocabulary). -/
def pyReprStrList (xs : List String) : String :=
  "[" ++ String.intercalate ", " (xs.map (fun s => "\x27" ++ s ++ "\x27")) ++ "]"

/-- Embeds `ATSChecker._check_headers`. -/
def _check_headers (issues : List ATSIssue) (resumeJson : ResumeJson)
    (rawText : String) : ℚ × List ATSIssue :=
  let textLower := pyLower rawText
  let foundHeaders := ATS_HEADERS.filter (fun header => pyIn header textLower)
  let jsonHeaders :=
    if resumeJson.isEmpty then []
    else
      ((resumeJson.map Prod.fst).filter
        (fun key => ATS_HEADERS.contains (pyLower key))).map pyLower
  let foundHeaders := foundHeaders ++ jsonHeaders
  let uniqueHeaders := pyUnique foundHeaders
  let score : ℚ :=
    if uniqueHeaders.length ≥ 5 then 100
    else if uniqueHeaders.length ≥ 3 then 80
    else if uniqueHeaders.length ≥ 2 then 60
    else if uniqueHeaders.length ≥ 1 then 40
    else 0
  let issues :=
    if uniqueHeaders.length < 3 then
      let foundRepr := pyReprStrList uniqueHeaders
      issues ++ [⟨"headers", "major",
        s!"Missing important section headers. Found: {foundRepr}",
        "Add clear section headers like: experience, skills, education"⟩]
    else issues
  (score, issues)

/-- Contact-related keys probed in the resume mapping (`_check_contact`). -/
def contact_keys : List String := ["email", "phone", "address", "location", "contact"]

/-- The `for key in contact_keys` loop of `_check_contact`: adds 20 points
per newly discovered contact category present in the mapping (probed first
lowercased, then by exact key). -/
def contactJsonLoop : List String → ResumeJson → List String → ℚ →
    List String × ℚ
  | [], _, contactFound, score => (contactFound, score)
  | key :: rest, resumeJson, contactFound, score =>
      if (dictLookup resumeJson (pyLower key)).isSome then
        if contactFound.contains (pyLower key) then
          contactJsonLoop rest resumeJson contactFound score
        else
          contactJsonLoop rest resumeJson (contactFound ++ [pyLower key]) (score + 20)
      else if (dictLookup resumeJson key).isSome then
        if contactFound.contains (pyLower key) then
          contactJsonLoop rest resumeJson contactFound score
        else
          contactJsonLoop rest resumeJson (contactFound ++ [pyLower key]) (score + 20)
      else
        contactJsonLoop rest resumeJson contactFound score

/-- Embeds `ATSChecker._check_contact`. -/
def _check_contact (issues : List ATSIssue) (rf : RegexFacts)
    (resumeJson : ResumeJson) (_rawText : String) : ℚ × List ATSIssue :=
  let score : ℚ := 0
  let contactFound : List String := []
  let step1 :=
    if rf.emailCount > 0 then (contactFound ++ ["email"], score + 30)
    else (contactFound, score)
  let contactFound := step1.1
  let score := step1.2
  let step2 :=
    if rf.phoneCount > 0 then (contactFound ++ ["phone"], score + 30)
    else (contactFound, score)
  let contactFound := step2.1
  let score := step2.2
  let step3 :=
    if rf.locationHit1 || rf.locationHit2 || rf.locationHit3 then
      (contactFound ++ ["location"], score + 20)
    else (contactFound, score)
  let contactFound := step3.1
  let score := step3.2
  let step4 :=
    if resumeJson.isEmpty then (contactFound, score)
    else contactJsonLoop contact_keys resumeJson contactFound score
  let contactFound := step4.1
  let score := step4.2
  let issues :=
    if contactFound = [] then
      issues ++ [⟨"contact", "critical",
        "No contact information found",
        "Add email, phone number, and location to your resume"⟩]
    else if contactFound.length < 2 then
      let foundRepr := pyReprStrList contactFound
      issues ++ [⟨"contact", "major",
        s!"Limited contact information. Found: {foundRepr}",
        "Add missing contact details (email, phone, location)"⟩]
    else issues
  (min 100 score, issues)

/-- Embeds `ATSChecker._check_skills`. -/
def _check_skills (issues : List ATSIssue) (resumeJson : ResumeJson)
    (rawText : String) : ℚ × List ATSIssue :=
  let textLower := pyLower rawText
  let skillsFound := SKILL_KEYWORDS.filter (fun skill => pyIn skill textLower)
  let jsonSkills : List String :=
    if resumeJson.isEmpty then []
    else
      match dictLookup resumeJson "skills" with
      | some (PyVal.list xs) =>
          xs.filterMap (fun v =>
            match v with
            | PyVal.str s => some (pyLower s)
            | _ => Option.none)
      | some (PyVal.str s) => pySplitWs (pyLower s)
      | _ => []
  let skillsFound := skillsFound ++ jsonSkills
  let uniqueSkills := pyUnique skillsFound
  let score : ℚ :=
    if uniqueSkills.length ≥ 10 then 100
    else if uniqueSkills.length ≥ 7 then 80
    else if uniqueSkills.length ≥ 5 then 60
    else if uniqueSkills.length ≥ 3 then 40
    else if uniqueSkills.length ≥ 1 then 20
    else 0
  let issues :=
    if uniqueSkills.length < 5 then
      let n := uniqueSkills.length
      issues ++ [⟨"skills", "major",
        s!"Limited skills identified. Found: {n} relevant skills",
        "Add more specific technical and soft skills to your resume"⟩]
    else issues
  (score, issues)

/-- Experience-related keywords of `_check_experience`. -/
def experience_keywords : List String :=
  ["experience", "work", "employment", "job", "position", "role"]

/-- Resume-mapping keys probed for experience entries (`_check_experience`). -/
def exp_keys : List String := ["experience", "work_experience", "employment", "jobs"]

/-- The `for key in exp_keys` loop of `_check_experience`: the first key whose
value is a non-empty list adds 30 points and stops the loop; keys present with
any other value do not stop it. -/
def expJsonLoop : List String → ResumeJson → ℚ
  | [], _ => 0
  | key :: rest, resumeJson =>
      match dictLookup resumeJson (pyLower key) with
      | some (PyVal.list xs) =>
          if xs.length > 0 then 30 else expJsonLoop rest resumeJson
      | some _ => expJsonLoop rest resumeJson
      | Option.none =>
          match dictLookup resumeJson key with
          | some (PyVal.list xs) =>
              if xs.length > 0 then 30 else expJsonLoop rest resumeJson
          | some _ => expJsonLoop rest resumeJson
          | Option.none => expJsonLoop rest resumeJson

/-- Embeds `ATSChecker._check_experience`. -/
def _check_experience (issues : List ATSIssue) (rf : RegexFacts)
    (resumeJson : ResumeJson) (rawText : String) : ℚ × List ATSIssue :=
  let score : ℚ := 0
  let textLower := pyLower rawText
  let experienceFound := experience_keywords.any (fun kw => pyIn kw textLower)
  let score := if experienceFound then score + 30 else score
  let patternMatches := rf.jobMatches1 + rf.jobMatches2
  let score :=
    if patternMatches ≥ 5 then score + 40
    else if patternMatches ≥ 3 then score + 30
    else if patternMatches ≥ 1 then score + 20
    else score
  let score :=
    if resumeJson.isEmpty then score
    else score + expJsonLoop exp_keys resumeJson
  let issues :=
    if score < 50 then
      issues ++ [⟨"experience", "major",
        "Work experience section is unclear or missing",
        "Add a clear work experience section with job titles, companies, and dates"⟩]
    else issues
  (min 100 score, issues)

/-- Embeds `ATSChecker._check_dates`.  The four `re.findall` totals are taken
from the `RegexFacts` record and summed without deduplication, as in the
source. -/
def _check_dates (issues : List ATSIssue) (rf : RegexFacts)
    (_resumeJson : ResumeJson) (_rawText : String) : ℚ × List ATSIssue :=
  let totalDates := rf.dateYearCount + rf.dateMonthYearCount +
    rf.dateNumericCount + rf.dateFullMonthCount
  let score : ℚ :=
    if totalDates ≥ 6 then 100
    else if totalDates ≥ 4 then 80
    else if totalDates ≥ 2 then 60
    else if totalDates ≥ 1 then 40
    else 0
  let issues :=
    if totalDates < 2 then
      issues ++ [⟨"dates", "major",
        s!"Limited date information found ({totalDates} dates)",
        "Add dates for education, work experience, and certifications"⟩]
    else issues
  (score, issues)

/-- Image-reference indicators of `_check_fonts_images`. -/
def image_indicators : List String :=
  ["image", "img", "photo", "picture", "logo", "graphic"]

/-- Special/decorative characters of `_check_fonts_images`. -/
def special_chars : List String :=
  ["©", "®", "™", "◦", "▪", "▫", "◆", "◇", "★", "☆"]

/-- Embeds `ATSChecker._check_fonts_images`. -/
def _check_fonts_images (issues : List ATSIssue) (_resumeJson : ResumeJson)
    (rawText : String) : ℚ × List ATSIssue :=
  let score : ℚ := 100
  let textLower := pyLower rawText
  let imageCount := (image_indicators.map (fun ind => pyCount textLower ind)).sum
  let step1 :=
    if imageCount > 0 then
      (score - 20, issues ++ [⟨"fonts_images", "minor",
        s!"Found {imageCount} potential image references",
        "Avoid images, logos, or graphics in your resume for better ATS compatibility"⟩])
    else (score, issues)
  let score := step1.1
  let issues := step1.2
  let specialCharCount := (special_chars.map (fun ch => pyCount rawText ch)).sum
  let step2 :=
    if specialCharCount > 5 then
      (score - 10, issues ++ [⟨"fonts_images", "minor",
        s!"Found {specialCharCount} special characters",
        "Use standard bullet points and characters for better ATS compatibility"⟩])
    else (score, issues)
  let score := step2.1
  let issues := step2.2
  (max 0 score, issues)

/-- Embeds `ATSChecker._check_length`. -/
def _check_length (issues : List ATSIssue) (rawText : String) :
    ℚ × List ATSIssue :=
  let wordCount := pyWordCount rawText
  if OPTIMAL_LENGTH_MIN ≤ wordCount ∧ wordCount ≤ OPTIMAL_LENGTH_MAX then
    (100, issues)
  else if wordCount < OPTIMAL_LENGTH_MIN then
    (60, issues ++ [⟨"length", "major",
      s!"Resume is too short ({wordCount} words)",
      s!"Aim for {OPTIMAL_LENGTH_MIN}-{OPTIMAL_LENGTH_MAX} words for optimal length"⟩])
  else
    (80, issues ++ [⟨"length", "minor",
      s!"Resume is long ({wordCount} words)",
      s!"Consider condensing to {OPTIMAL_LENGTH_MAX} words or less"⟩])

/-- Embeds `ATSChecker._calculate_overall_score`: the weighted accumulation
in source order, rounded to one decimal place (`round(total_score, 1)`,
modelled exactly on rationals). -/
def _calculate_overall_score (breakdown : ATSBreakdown) : ℚ :=
  let total_score : ℚ := 0
  let total_score := total_score + breakdown.file_text_extractable * WEIGHTS_file_text_extractable
  let total_score := total_score + breakdown.layout * WEIGHTS_layout
  let total_score := total_score + breakdown.headers * WEIGHTS_headers
  let total_score := total_score + breakdown.contact * WEIGHTS_contact
  let total_score := total_score + breakdown.skills * WEIGHTS_skills
  let total_score := total_score + breakdown.experience * WEIGHTS_experience
  let total_score := total_score + breakdown.dates * WEIGHTS_dates
  let total_score := total_score + breakdown.fonts_images * WEIGHTS_fonts_images
  let total_score := total_score + breakdown.length * WEIGHTS_length
  (round (total_score * 10) : ℤ) / 10

/-- Embeds `ATSChecker._determine_confidence`: the breakdown argument is
received but never consulted; only the raw-text length matters. -/
def _determine_confidence (_breakdown : ATSBreakdown) (textLength : Nat) :
    ATSConfidence :=
  if textLength < 200 then ATSConfidence.low
  else if textLength < 500 then ATSConfidence.medium
  else ATSConfidence.high

/-- Embeds the method `ATSChecker.run_ats_checks`: normalizes `None`
inputs, resets the per-instance accumulators, runs the nine checks in
breakdown-field order threading the issue list, and assembles the report.
Returns the updated checker state together with the report. -/
def ATSChecker_run_ats_checks (st : CheckerState) (rf : RegexFacts)
    (resumeJsonOpt : Option ResumeJson) (rawTextOpt : Option String) :
    CheckerState × ATSReport :=
  let resumeJson := resumeJsonOpt.getD []
  let rawText := rawTextOpt.getD ""
  let _ := st
  let issues : List ATSIssue := []
  let recommendedActions : List String := []
  let r1 := _check_file_text_extractable issues rawText
  let s1 := r1.1
  let issues := r1.2
  let r2 := _check_layout issues resumeJson rawText
  let s2 := r2.1
  let issues := r2.2
  let r3 := _check_headers issues resumeJson rawText
  let s3 := r3.1
  let issues := r3.2
  let r4 := _check_contact issues rf resumeJson rawText
  let s4 := r4.1
  let issues := r4.2
  let r5 := _check_skills issues resumeJson rawText
  let s5 := r5.1
  let issues := r5.2
  let r6 := _check_experience issues rf resumeJson rawText
  let s6 := r6.1
  let issues := r6.2
  let r7 := _check_dates issues rf resumeJson rawText
  let s7 := r7.1
  let issues := r7.2
  let r8 := _check_fonts_images issues resumeJson rawText
  let s8 := r8.1
  let issues := r8.2
  let r9 := _check_length issues rawText
  let s9 := r9.1
  let issues := r9.2
  let breakdown : ATSBreakdown := ⟨s1, s2, s3, s4, s5, s6, s7, s8, s9⟩
  let overallScore := _calculate_overall_score breakdown
  let confidence := _determine_confidence breakdown rawText.length
  (⟨issues, recommendedActions⟩,
   ⟨overallScore, breakdown, issues, recommendedActions, confidence⟩)

/-- Embeds the module-level `run_ats_checks`: constructs a fresh checker
(empty accumulators) and runs it. -/
def run_ats_checks (rf : RegexFacts) (resumeJsonOpt : Option ResumeJson)
    (rawTextOpt : Option String) : ATSReport :=
  (ATSChecker_run_ats_checks ⟨[], []⟩ rf resumeJsonOpt rawTextOpt).2

/-! ## Tool registry (`registry.py`) -/

/-- Standardized tool execution result (`ToolResult`); also the shape of the
dict returned by `ToolExecutor.run_tool`. -/
structure ToolResult where
  success : Bool
  output : String
  error : String
deriving DecidableEq, Repr

/-- Generic lookup in an association list with string keys (Python dict
access; dict keys are unique, first binding wins). -/
def assocLookup {α : Type} (d : List (String × α)) (key : String) : Option α :=
  (d.find? (fun kv => kv.1 = key)).map Prod.snd

/-- Possible results of a Python value returned by `eval` in `calc_tool`
(only numbers and a catch-all other value can come back from the restricted
namespace). -/
inductive PyNum where
  | int (n : Int)
  | float (q : ℚ)
  | other (asString : String)
deriving DecidableEq, Repr

/-- Possible outcomes of the `eval(expression, safe_globals, safe_locals)`
call, one constructor per `except` clause of `calc_tool`. -/
inductive EvalOutcome where
  | ok (v : PyNum)
  | zeroDivisionError
  | valueError (msg : String)
  | syntaxError (msg : String)
  | exception (msg : String)

/-- Python `s.rstrip(c)` for a single character. -/
def rstripChar (s : String) (c : Char) : String :=
  String.mk (s.data.reverse.dropWhile (fun x => x = c)).reverse

/-- Rendering of a non-integral float as `f"{result:.6f}"` (modelled as exact
rounding of the rational to six decimal places). -/
def formatFloat6 (q : ℚ) : String :=
  let scaled : ℤ := round (q * 1000000)
  let sign := if scaled < 0 then "-" else ""
  let a := scaled.natAbs
  let intPart := a / 1000000
  let fracPart := a % 1000000
  let fracStr := toString fracPart
  let fracPad := String.mk (List.replicate (6 - fracStr.length) '0') ++ fracStr
  sign ++ toString intPart ++ "." ++ fracPad

/-- The result-formatting block of `calc_tool`: integral floats render as
`str(int(result))`, other floats as `f"{result:.6f}".rstrip("0").rstrip(".")`,
all other values as `str(result)`. -/
def pyFormatCalcResult : PyNum → String
  | PyNum.float q =>
      if q.den = 1 then toString q.num
      else rstripChar (rstripChar (formatFloat6 q) '0') '.'
  | PyNum.int n => toString n
  | PyNum.other s => s

/-- Denylist of dangerous substrings checked by `calc_tool` before
evaluation (`dangerous_patterns`). -/
def dangerous_patterns : List String :=
  ["__", "import", "exec", "eval", "open", "file", "input"]

/-- Characters declared safe by `calc_tool` (`allowed_chars`).  NOTE: the
source defines this set with the comment "Sanitize input - only allow safe
characters" but never applies it — no check against it is performed. -/
def allowed_chars : List Char := "0123456789+-*/.() ".data

/-- Allow-listed function names declared by `calc_tool`
(`allowed_functions`).  Like `allowed_chars`, defined in the source but never
consulted. -/
def allowed_functions : List String :=
  ["sqrt", "abs", "sin", "cos", "tan", "log", "exp", "pi", "e"]

/-- The error message produced when a dangerous pattern is found
(`f"Dangerous pattern \x27{pattern}\x27 detected in expression"`). -/
def dangerousErrorMsg (pattern : String) : String :=
  "Dangerous pattern \x27" ++ pattern ++ "\x27 detected in expression"

/-- Translation of each `eval` outcome to the `ToolResult` produced by the
corresponding branch of `calc_tool`. -/
def evalDispatch : EvalOutcome → ToolResult
  | EvalOutcome.ok v => ⟨true, pyFormatCalcResult v, ""⟩
  | EvalOutcome.zeroDivisionError => ⟨false, "", "Division by zero"⟩
  | EvalOutcome.valueError m => ⟨false, "", "Invalid value: " ++ m⟩
  | EvalOutcome.syntaxError m => ⟨false, "", "Invalid syntax: " ++ m⟩
  | EvalOutcome.exception m => ⟨false, "", "Calculation error: " ++ m⟩

/-- Embeds `calc_tool`.  The `evalFn` oracle stands for the
`eval(expression, safe_globals, safe_locals)` call; the source reaches it
whenever no dangerous pattern occurs in the lowercased expression (the
`allowed_chars` / `allowed_functions` sets above are defined but never
checked, exactly as in the source). -/
def calc_tool (evalFn : String → EvalOutcome) (expression : String) :
    ToolResult :=
  match dangerous_patterns.find? (fun pattern => pyIn pattern (pyLower expression)) with
  | some pattern => ⟨false, "", dangerousErrorMsg pattern⟩
  | Option.none => evalDispatch (evalFn expression)

/-! ## Text decoding (`open(path, "r", encoding=..., errors="ignore")`) -/

/-- Whether a byte is a UTF-8 continuation byte (`10xxxxxx`). -/
def contByte (b : Nat) : Bool := 0x80 ≤ b && b ≤ 0xBF

/-- Valid second byte of a three-byte UTF-8 sequence led by `b1` (the `E0`
and `ED` leads have restricted ranges, excluding overlong encodings and
surrogates). -/
def validSecond3 (b1 b2 : Nat) : Bool :=
  if b1 = 0xE0 then 0xA0 ≤ b2 && b2 ≤ 0xBF
  else if b1 = 0xED then 0x80 ≤ b2 && b2 ≤ 0x9F
  else contByte b2

/-- Valid second byte of a four-byte UTF-8 sequence led by `b1`. -/
def validSecond4 (b1 b2 : Nat) : Bool :=
  if b1 = 0xF0 then 0x90 ≤ b2 && b2 ≤ 0xBF
  else if b1 = 0xF4 then 0x80 ≤ b2 && b2 ≤ 0x8F
  else contByte b2

/-- UTF-8 decoder with the two error modes of Python `open(...)`: with
`errors="ignore"` (`ignore = true`) invalid bytes are skipped, with strict
mode (`ignore = false`) an invalid byte raises `UnicodeDecodeError`,
modelled as `none`.  (CPython may skip several bytes of an invalid sequence
at once under `ignore`; skipping is modelled one byte at a time, which only
affects how much garbage is dropped, never whether decoding succeeds.)
The fuel argument (instantiated with the byte count, enough since every
step consumes at least one byte) makes the recursion structural; exhausted
fuel is modelled as a decode error, and is proved unreachable. -/
def utf8DecodeFuel (ignore : Bool) : Nat → List Nat → Option (List Char)
  | _, [] => some []
  | 0, _ :: _ => Option.none
  | fuel + 1, b :: rest =>
      if b < 0x80 then
        (utf8DecodeFuel ignore fuel rest).map (fun cs => Char.ofNat b :: cs)
      else if 0xC2 ≤ b && b ≤ 0xDF then
        match rest with
        | b2 :: rest2 =>
            if contByte b2 then
              (utf8DecodeFuel ignore fuel rest2).map
                (fun cs => Char.ofNat ((b - 0xC0) * 64 + (b2 - 0x80)) :: cs)
            else if ignore then utf8DecodeFuel ignore fuel rest else Option.none
        | [] => if ignore then some [] else Option.none
      else if 0xE0 ≤ b && b ≤ 0xEF then
        match rest with
        | b2 :: b3 :: rest3 =>
            if validSecond3 b b2 && contByte b3 then
              (utf8DecodeFuel ignore fuel rest3).map
                (fun cs =>
                  Char.ofNat ((b - 0xE0) * 4096 + (b2 - 0x80) * 64 + (b3 - 0x80)) :: cs)
            else if ignore then utf8DecodeFuel ignore fuel rest else Option.none
        | _ => if ignore then some [] else Option.none
      else if 0xF0 ≤ b && b ≤ 0xF4 then
        match rest with
        | b2 :: b3 :: b4 :: rest4 =>
            if validSecond4 b b2 && contByte b3 && contByte b4 then
              (utf8DecodeFuel ignore fuel rest4).map
                (fun cs =>
                  Char.ofNat ((b - 0xF0) * 262144 + (b2 - 0x80) * 4096 +
                    (b3 - 0x80) * 64 + (b4 - 0x80)) :: cs)
            else if ignore then utf8DecodeFuel ignore fuel rest else Option.none
        | _ => if ignore then some [] else Option.none
      else
        if ignore then utf8DecodeFuel ignore fuel rest else Option.none

/-- Python `open(path, "r", encoding="utf-8", errors=...).read()` on the raw
bytes of the file. -/
def utf8Decode (ignore : Bool) (bs : List Nat) : Option (List Char) :=
  utf8DecodeFuel ignore bs.length bs

/-- Byte pairs to little-endian UTF-16 code units; an odd trailing byte is
invalid (skipped under `ignore`). -/
def utf16Units (ignore : Bool) : List Nat → Option (List Nat)
  | [] => some []
  | [_] => if ignore then some [] else Option.none
  | lo :: hi :: rest =>
      (utf16Units ignore rest).map (fun us => (hi * 256 + lo) :: us)

/-- UTF-16 code units to characters, pairing surrogates; unpaired surrogates
are invalid (skipped under `ignore`).  Fuel as in `utf8DecodeFuel`. -/
def utf16CharsFuel (ignore : Bool) : Nat → List Nat → Option (List Char)
  | _, [] => some []
  | 0, _ :: _ => Option.none
  | fuel + 1, u :: rest =>
      if u < 0xD800 || 0xE000 ≤ u then
        (utf16CharsFuel ignore fuel rest).map (fun cs => Char.ofNat u :: cs)
      else if u ≤ 0xDBFF then
        match rest with
        | u2 :: rest2 =>
            if 0xDC00 ≤ u2 && u2 ≤ 0xDFFF then
              (utf16CharsFuel ignore fuel rest2).map
                (fun cs =>
                  Char.ofNat (0x10000 + (u - 0xD800) * 1024 + (u2 - 0xDC00)) :: cs)
            else if ignore then utf16CharsFuel ignore fuel rest else Option.none
        | [] => if ignore then some [] else Option.none
      else
        if ignore then utf16CharsFuel ignore fuel rest else Option.none

/-- UTF-16 code units to characters (fuel instantiated with the unit
count). -/
def utf16Chars (ignore : Bool) (us : List Nat) : Option (List Char) :=
  utf16CharsFuel ignore us.length us

/-- Python `open(path, "r", encoding="utf-16", errors="ignore").read()`
(modelled little-endian, dropping a leading byte-order mark). -/
def utf16Decode (ignore : Bool) (bs : List Nat) : Option (List Char) :=
  let bs := match bs with
    | 0xFF :: 0xFE :: rest => rest
    | _ => bs
  (utf16Units ignore bs).bind (utf16Chars ignore)

/-! ## File tools (`read_file_tool`, `list_files_tool`) -/

/-- One entry produced by `Path.iterdir()` (an entry that is neither a
regular file nor a directory is skipped by the listing loop). -/
structure DirEntry where
  name : String
  entryIsFile : Bool
  entryIsDir : Bool

/-- Oracle for the filesystem operations used by the file tools: `Path.cwd`,
`Path.resolve`, `exists`, `is_file`, `is_dir`, `stat().st_size`, the byte
content handed to `open(...).read()`, permission outcomes, and `iterdir`.
Resolved paths are canonical absolute POSIX paths. -/
structure FileSystem where
  cwd : String
  resolve : String → String
  pathExists : String → Bool
  pathIsFile : String → Bool
  pathIsDir : String → Bool
  fileSize : String → Nat
  readPermitted : String → Bool
  readBytes : String → List Nat
  listPermitted : String → Bool
  listDir : String → List DirEntry

/-- POSIX `os.path.isabs`. -/
def os_path_isabs (p : String) : Bool := List.isPrefixOf "/".data p.data

/-- Whether `path.relative_to(base)` succeeds for canonical absolute paths:
`path` equals `base` or lies strictly below it. -/
def relativeToSucceeds (path base : String) : Bool :=
  path = base || List.isPrefixOf (base ++ "/").data path.data

/-- Embeds `read_file_tool`.  The string-level traversal guard runs before
any filesystem operation; the decode step is `errors="ignore"` UTF-8 with an
`except UnicodeDecodeError` fallback to `errors="ignore"` UTF-16, and the
outer `except UnicodeDecodeError` produces the invalid-characters failure. -/
def read_file_tool (fs : FileSystem) (filepath : String) : ToolResult :=
  if pyIn ".." filepath || os_path_isabs filepath then
    ⟨false, "", "Path traversal not allowed. Use relative paths only."⟩
  else
    let path := fs.resolve filepath
    if ¬ relativeToSucceeds path fs.cwd then
      ⟨false, "", "File must be in current directory or subdirectories"⟩
    else if ¬ fs.pathExists path then
      ⟨false, "", "File not found"⟩
    else if ¬ fs.pathIsFile path then
      ⟨false, "", "Path is not a file"⟩
    else if fs.fileSize path > 1024 * 1024 then
      ⟨false, "", "File too large (max 1MB)"⟩
    else if ¬ fs.readPermitted path then
      ⟨false, "", "Permission denied"⟩
    else
      match utf8Decode true (fs.readBytes path) with
      | some content => ⟨true, String.mk content, ""⟩
      | Option.none =>
          match utf16Decode true (fs.readBytes path) with
          | some content => ⟨true, String.mk content, ""⟩
          | Option.none => ⟨false, "", "File contains invalid characters"⟩

/-- Embeds `list_files_tool`. -/
def list_files_tool (fs : FileSystem) (directory : String) : ToolResult :=
  if pyIn ".." directory || os_path_isabs directory then
    ⟨false, "", "Path traversal not allowed. Use relative paths only."⟩
  else
    let path := fs.resolve directory
    if ¬ relativeToSucceeds path fs.cwd then
      ⟨false, "", "Directory must be in current directory or subdirectories"⟩
    else if ¬ fs.pathExists path then
      ⟨false, "", "Directory not found"⟩
    else if ¬ fs.pathIsDir path then
      ⟨false, "", "Path is not a directory"⟩
    else if ¬ fs.listPermitted path then
      ⟨false, "", "Permission denied"⟩
    else
      let items := (fs.listDir path).filterMap (fun item =>
        if item.entryIsFile then some ("FILE: " ++ item.name)
        else if item.entryIsDir then some ("DIR:  " ++ item.name)
        else Option.none)
      let items := items.mergeSort (fun a b => decide (a ≤ b))
      let output :=
        if items.isEmpty then "Directory is empty"
        else String.intercalate "\n" items
      ⟨true, output, ""⟩

/-! ## Tool registry and parameter validation -/

/-- Parameter schema of a registered tool: the `required` list and the
per-field type tags of `properties`. -/
structure ToolParamsSchema where
  required : List String
  properties : List (String × String)

/-- The tool registry `TOOLS` of `registry.py`, reduced to the data consulted
by `run_tool` / `validate_tool_parameters`: names and parameter schemas, in
source order. -/
def TOOLS : List (String × ToolParamsSchema) :=
  [("echo", ⟨["text"], [("text", "string")]⟩),
   ("calc", ⟨["expression"], [("expression", "string")]⟩),
   ("read_file", ⟨["filepath"], [("filepath", "string")]⟩),
   ("list_files", ⟨[], [("directory", "string")]⟩),
   ("pdf_to_text", ⟨["filepath"], [("filepath", "string")]⟩)]

/-- Arguments passed to a tool call: a Python dict of string keys to
JSON-like values. -/
abbrev Args := List (String × PyVal)

/-- Python `isinstance(x, str)`. -/
def pyIsStr : PyVal → Bool
  | PyVal.str _ => true
  | _ => false

/-- Python `isinstance(x, (int, float))`; `bool` is a subclass of `int` in
Python, so booleans count as numbers. -/
def pyIsNum : PyVal → Bool
  | PyVal.int _ => true
  | PyVal.float _ => true
  | PyVal.bool _ => true
  | _ => false

/-- Python `isinstance(x, bool)`. -/
def pyIsBool : PyVal → Bool
  | PyVal.bool _ => true
  | _ => false

/-- Embeds `validate_tool_parameters`: every required field present, every
present field with a declared type tag matching that tag; unknown fields and
unknown tags are ignored; unknown tool names are invalid. -/
def validate_tool_parameters (tool_name : String) (parameters : Args) : Bool :=
  match assocLookup TOOLS tool_name with
  | Option.none => false
  | some schema =>
      schema.required.all (fun param => (assocLookup parameters param).isSome) &&
      parameters.all (fun kv =>
        match assocLookup schema.properties kv.1 with
        | some "string" => pyIsStr kv.2
        | some "number" => pyIsNum kv.2
        | some "boolean" => pyIsBool kv.2
        | _ => true)

/-! ## Tool executor (`executor.py`) -/

/-- What the tool implementation call inside `_execute_tool_safely` does:
returns a well-formed `ToolResult`, returns some other value, or raises. -/
inductive CallOutcome where
  | returnsToolResult (r : ToolResult)
  | returnsNonToolResult
  | raises (msg : String)

/-- Embeds `ToolExecutor._execute_tool_safely`: normalizes the
implementation call to a `ToolResult`, converting a raised exception or a
non-`ToolResult` return into a failure. -/
def _execute_tool_safely (callResult : CallOutcome) : ToolResult :=
  match callResult with
  | CallOutcome.returnsToolResult r => r
  | CallOutcome.returnsNonToolResult =>
      ⟨false, "", "Tool function did not return a ToolResult"⟩
  | CallOutcome.raises msg => ⟨false, "", "Tool execution failed: " ++ msg⟩

/-- What `future.result(timeout=timeout)` observes for a scheduled call:
the worker finished (with some call outcome) before the deadline, or the
wait timed out. -/
inductive SchedOutcome where
  | finished (c : CallOutcome)
  | timedOut

/-- Oracle for the worker pool: given the tool name and arguments of the
scheduled call, what the caller observes at the `future.result` wait. -/
abbrev Scheduler := String → Args → SchedOutcome

/-- Embeds `ToolExecutor.run_tool`: registry lookup, parameter validation,
then the scheduled call raced against the timeout.  A total function — no
exception escapes to the caller (the outer `except Exception` has no
remaining trigger once the registry, validation and worker steps are
modelled). -/
def run_tool (sched : Scheduler) (name : String) (args : Args)
    (timeout : Nat) : ToolResult :=
  if (assocLookup TOOLS name).isNone then
    ⟨false, "", "Tool \x27" ++ name ++ "\x27 not found in registry"⟩
  else if ¬ validate_tool_parameters name args then
    ⟨false, "", "Invalid parameters for tool \x27" ++ name ++ "\x27"⟩
  else
    match sched name args with
    | SchedOutcome.finished c => _execute_tool_safely c
    | SchedOutcome.timedOut =>
        ⟨false, "",
          "Tool \x27" ++ name ++ "\x27 execution timed out after " ++
            toString timeout ++ " seconds"⟩

/-- The five mutually exclusive outcomes of a `run_tool` call named by the
specification (registry miss, validation failure, normal success,
implementation failure, timeout). -/
inductive RunOutcome where
  | registryMiss
  | validationFailure
  | normalSuccess (r : ToolResult)
  | implementationFailure (r : ToolResult)
  | timedOut

/-- Classifier of a `run_tool` call into exactly one of the five
specification outcomes (a total function into the five-constructor
inductive). -/
def classifyRun (sched : Scheduler) (name : String) (args : Args) :
    RunOutcome :=
  if (assocLookup TOOLS name).isNone then RunOutcome.registryMiss
  else if ¬ validate_tool_parameters name args then RunOutcome.validationFailure
  else
    match sched name args with
    | SchedOutcome.finished c =>
        let r := _execute_tool_safely c
        if r.success then RunOutcome.normalSuccess r
        else RunOutcome.implementationFailure r
    | SchedOutcome.timedOut => RunOutcome.timedOut

/-- The single result `run_tool` returns for each of the five outcomes. -/
def runOutcomeResult (name : String) (timeout : Nat) : RunOutcome → ToolResult
  | RunOutcome.registryMiss =>
      ⟨false, "", "Tool \x27" ++ name ++ "\x27 not found in registry"⟩
  | RunOutcome.validationFailure =>
      ⟨false, "", "Invalid parameters for tool \x27" ++ name ++ "\x27"⟩
  | RunOutcome.normalSuccess r => r
  | RunOutcome.implementationFailure r => r
  | RunOutcome.timedOut =>
      ⟨false, "",
        "Tool \x27" ++ name ++ "\x27 execution timed out after " ++
          toString timeout ++ " seconds"⟩

/-! ## Theorems -/

/-- The overall score as the specification words it: the dot product of the
breakdown with the fixed weights (.15, .15, .12, .10, .15, .15, .08, .05,
.05), rounded to one decimal place.  Written from the spec sentence, to be
compared with the source-derived `_calculate_overall_score`. -/
def spec_overall_score (b : ATSBreakdown) : ℚ :=
  let dot :=
    b.file_text_extractable * (15 / 100) + b.layout * (15 / 100) +
    b.headers * (12 / 100) + b.contact * (10 / 100) + b.skills * (15 / 100) +
    b.experience * (15 / 100) + b.dates * (8 / 100) +
    b.fonts_images * (5 / 100) + b.length * (5 / 100)
  (round (dot * 10) : ℤ) / 10

/-- C1: for every breakdown of nine category scores, the overall ATS score
equals the dot product of the breakdown with the fixed weights
(file_text_extractable .15, layout .15, headers .12, contact .10,
skills .15, experience .15, dates .08, fonts_images .05, length .05),
rounded to one decimal place; and the nine weights sum to 1. -/
theorem overall_score_is_weighted_dot_product (b : ATSBreakdown) :
    _calculate_overall_score b = spec_overall_score b ∧
    WEIGHTS_file_text_extractable + WEIGHTS_layout + WEIGHTS_headers +
      WEIGHTS_contact + WEIGHTS_skills + WEIGHTS_experience + WEIGHTS_dates +
      WEIGHTS_fonts_images + WEIGHTS_length = 1 := by
  constructor
  · unfold _calculate_overall_score spec_overall_score
    unfold WEIGHTS_file_text_extractable WEIGHTS_layout WEIGHTS_headers
      WEIGHTS_contact WEIGHTS_skills WEIGHTS_experience WEIGHTS_dates
      WEIGHTS_fonts_images WEIGHTS_length
    ring_nf
  · unfold WEIGHTS_file_text_extractable WEIGHTS_layout WEIGHTS_headers
      WEIGHTS_contact WEIGHTS_skills WEIGHTS_experience WEIGHTS_dates
      WEIGHTS_fonts_images WEIGHTS_length
    norm_num

/-- C3: the report confidence is a pure function of the raw-text length
alone — < 200 gives low, < 500 gives medium, otherwise high — and two
inputs with equal raw-text length but arbitrary breakdowns receive the same
confidence. -/
theorem confidence_is_pure_function_of_text_length :
    (∀ (rf : RegexFacts) (rj : Option ResumeJson) (rt : String),
      (run_ats_checks rf rj (some rt)).confidence =
        (if rt.length < 200 then ATSConfidence.low
         else if rt.length < 500 then ATSConfidence.medium
         else ATSConfidence.high)) ∧
    (∀ (b1 b2 : ATSBreakdown) (n : Nat),
      _determine_confidence b1 n = _determine_confidence b2 n) := by
  constructor
  · intro rf rj rt
    rfl
  · intro b1 b2 n
    rfl

/-- The dict-probing loop of `_check_contact` never decreases the score. -/
lemma contactJsonLoop_score_ge (keys : List String) (r : ResumeJson) :
    ∀ (found : List String) (sc : ℚ),
      sc ≤ (contactJsonLoop keys r found sc).2 := by
  induction keys with
  | nil => intro found sc; simp [contactJsonLoop]
  | cons key rest ih =>
      intro found sc
      unfold contactJsonLoop
      split_ifs <;>
        first
          | exact ih _ _
          | exact le_trans (by linarith) (ih _ _)

/-- The dict-probing loop of `_check_experience` yields 0 or 30. -/
lemma expJsonLoop_nonneg (keys : List String) (r : ResumeJson) :
    0 ≤ expJsonLoop keys r := by
  induction keys with
  | nil => simp [expJsonLoop]
  | cons key rest ih =>
      unfold expJsonLoop
      split
      · split_ifs <;> first | exact ih | norm_num
      · exact ih
      · split
        · split_ifs <;> first | exact ih | norm_num
        · exact ih
        · exact ih

lemma check_file_text_bounds (issues : List ATSIssue) (rawText : String) :
    0 ≤ (_check_file_text_extractable issues rawText).1 ∧
      (_check_file_text_extractable issues rawText).1 ≤ 100 := by
  unfold _check_file_text_extractable
  dsimp only
  split_ifs <;> norm_num

lemma check_layout_bounds (issues : List ATSIssue) (r : ResumeJson)
    (rawText : String) :
    0 ≤ (_check_layout issues r rawText).1 ∧
      (_check_layout issues r rawText).1 ≤ 100 := by
  unfold _check_layout
  dsimp only
  split_ifs <;> constructor <;> norm_num [le_max_iff, max_le_iff]

lemma check_headers_bounds (issues : List ATSIssue) (r : ResumeJson)
    (rawText : String) :
    0 ≤ (_check_headers issues r rawText).1 ∧
      (_check_headers issues r rawText).1 ≤ 100 := by
  unfold _check_headers
  dsimp only
  split_ifs <;> norm_num

lemma check_contact_bounds (issues : List ATSIssue) (rf : RegexFacts)
    (r : ResumeJson) (rawText : String) :
    0 ≤ (_check_contact issues rf r rawText).1 ∧
      (_check_contact issues rf r rawText).1 ≤ 100 := by
  unfold _check_contact
  dsimp only
  refine ⟨le_min (by norm_num) ?_, min_le_left _ _⟩
  split_ifs
  all_goals try norm_num
  all_goals exact le_trans (by norm_num) (contactJsonLoop_score_ge _ _ _ _)

lemma check_skills_bounds (issues : List ATSIssue) (r : ResumeJson)
    (rawText : String) :
    0 ≤ (_check_skills issues r rawText).1 ∧
      (_check_skills issues r rawText).1 ≤ 100 := by
  unfold _check_skills
  dsimp only
  split_ifs <;> norm_num

lemma check_experience_bounds (issues : List ATSIssue) (rf : RegexFacts)
    (r : ResumeJson) (rawText : String) :
    0 ≤ (_check_experience issues rf r rawText).1 ∧
      (_check_experience issues rf r rawText).1 ≤ 100 := by
  unfold _check_experience
  dsimp only
  refine ⟨le_min (by norm_num) ?_, min_le_left _ _⟩
  have h := expJsonLoop_nonneg exp_keys r
  split_ifs <;> linarith

lemma check_dates_bounds (issues : List ATSIssue) (rf : RegexFacts)
    (r : ResumeJson) (rawText : String) :
    0 ≤ (_check_dates issues rf r rawText).1 ∧
      (_check_dates issues rf r rawText).1 ≤ 100 := by
  unfold _check_dates
  dsimp only
  split_ifs <;> norm_num

lemma check_fonts_images_bounds (issues : List ATSIssue) (r : ResumeJson)
    (rawText : String) :
    0 ≤ (_check_fonts_images issues r rawText).1 ∧
      (_check_fonts_images issues r rawText).1 ≤ 100 := by
  unfold _check_fonts_images
  dsimp only
  split_ifs <;> constructor <;> norm_num [le_max_iff, max_le_iff]

lemma check_length_bounds (issues : List ATSIssue) (rawText : String) :
    0 ≤ (_check_length issues rawText).1 ∧
      (_check_length issues rawText).1 ≤ 100 := by
  unfold _check_length
  dsimp only
  split_ifs <;> norm_num

/-- C2: each of the nine category check functions returns a score in the
interval [0,100], for every issue accumulator, every regex result, every
resume mapping and every raw text. -/
theorem all_nine_check_scores_in_unit_range (issues : List ATSIssue)
    (rf : RegexFacts) (r : ResumeJson) (rawText : String) :
    (0 ≤ (_check_file_text_extractable issues rawText).1 ∧
      (_check_file_text_extractable issues rawText).1 ≤ 100) ∧
    (0 ≤ (_check_layout issues r rawText).1 ∧
      (_check_layout issues r rawText).1 ≤ 100) ∧
    (0 ≤ (_check_headers issues r rawText).1 ∧
      (_check_headers issues r rawText).1 ≤ 100) ∧
    (0 ≤ (_check_contact issues rf r rawText).1 ∧
      (_check_contact issues rf r rawText).1 ≤ 100) ∧
    (0 ≤ (_check_skills issues r rawText).1 ∧
      (_check_skills issues r rawText).1 ≤ 100) ∧
    (0 ≤ (_check_experience issues rf r rawText).1 ∧
      (_check_experience issues rf r rawText).1 ≤ 100) ∧
    (0 ≤ (_check_dates issues rf r rawText).1 ∧
      (_check_dates issues rf r rawText).1 ≤ 100) ∧
    (0 ≤ (_check_fonts_images issues r rawText).1 ∧
      (_check_fonts_images issues r rawText).1 ≤ 100) ∧
    (0 ≤ (_check_length issues rawText).1 ∧
      (_check_length issues rawText).1 ≤ 100) :=
  ⟨check_file_text_bounds issues rawText,
   check_layout_bounds issues r rawText,
   check_headers_bounds issues r rawText,
   check_contact_bounds issues rf r rawText,
   check_skills_bounds issues r rawText,
   check_experience_bounds issues rf r rawText,
   check_dates_bounds issues rf r rawText,
   check_fonts_images_bounds issues r rawText,
   check_length_bounds issues rawText⟩

/-- C8: the computation of `run_ats_checks` is deterministic and the
per-call issue/recommendation accumulators are reset at the start of each
call: the produced state and report are independent of the checker state the
call starts from, and calling twice in sequence with identical inputs
yields identical reports. -/
theorem run_ats_checks_deterministic_and_resets_state
    (st1 st2 : CheckerState) (rf : RegexFacts)
    (rj : Option ResumeJson) (rt : Option String) :
    ATSChecker_run_ats_checks st1 rf rj rt =
        ATSChecker_run_ats_checks st2 rf rj rt ∧
      (ATSChecker_run_ats_checks
          (ATSChecker_run_ats_checks st1 rf rj rt).1 rf rj rt).2 =
        (ATSChecker_run_ats_checks st1 rf rj rt).2 :=
  ⟨rfl, rfl⟩

/-- Text of end-to-end scenario A. -/
def scenarioA_text : String := "John Doe Software Engineer"

/-- Regex results on the scenario-A text "John Doe Software Engineer",
checkable by hand against the patterns in the source: the text contains no
"@" (the email pattern cannot match), no digit (the phone pattern and all
four date patterns require digits), and no comma (location pattern 1
requires one); location pattern 2 — two capitalized words, searched with
IGNORECASE — matches "John Doe"; job pattern 1 requires an uppercase letter
(it is run on the lowercased text, which has none); job pattern 2 matches
the two keywords "software" and "engineer". -/
def scenarioA_regex_facts : RegexFacts :=
  ⟨0, 0, false, true, false, 0, 2, 0, 0, 0, 0⟩

/-- Full evaluation of the checker on scenario A (`resume_json = {}`,
`raw_text = "John Doe Software Engineer"`). -/
lemma scenarioA_report_eq :
    run_ats_checks scenarioA_regex_facts (some []) (some scenarioA_text) =
      ⟨25, ⟨0, 80, 0, 20, 0, 20, 0, 100, 60⟩,
       [⟨"file_text_extractable", "critical",
          "Resume text is too short or unreadable",
          "Ensure the resume file is properly formatted and contains sufficient content"⟩,
        ⟨"layout", "major", "Resume has insufficient structure",
          "Add proper sections and line breaks"⟩,
        ⟨"headers", "major", "Missing important section headers. Found: []",
          "Add clear section headers like: experience, skills, education"⟩,
        ⟨"contact", "major",
          "Limited contact information. Found: [\x27location\x27]",
          "Add missing contact details (email, phone, location)"⟩,
        ⟨"skills", "major", "Limited skills identified. Found: 0 relevant skills",
          "Add more specific technical and soft skills to your resume"⟩,
        ⟨"experience", "major", "Work experience section is unclear or missing",
          "Add a clear work experience section with job titles, companies, and dates"⟩,
        ⟨"dates", "major", "Limited date information found (0 dates)",
          "Add dates for education, work experience, and certifications"⟩,
        ⟨"length", "major", "Resume is too short (4 words)",
          "Aim for 400-800 words for optimal length"⟩],
       [], ATSConfidence.low⟩ := by
  simp +decide [run_ats_checks, ATSChecker_run_ats_checks, _check_file_text_extractable,
    _check_layout, _check_headers, _check_contact, _check_skills, _check_experience,
    _check_dates, _check_fonts_images, _check_length, _calculate_overall_score,
    _determine_confidence, scenarioA_regex_facts, scenarioA_text, garbled_indicators,
    table_indicators, ATS_HEADERS, SKILL_KEYWORDS, experience_keywords, exp_keys,
    contact_keys, image_indicators, special_chars, WEIGHTS_file_text_extractable,
    WEIGHTS_layout, WEIGHTS_headers, WEIGHTS_contact, WEIGHTS_skills,
    WEIGHTS_experience, WEIGHTS_dates, WEIGHTS_fonts_images, WEIGHTS_length,
    OPTIMAL_LENGTH_MIN, OPTIMAL_LENGTH_MAX, pyCount, countSubAux, pyIn, containsSub,
    pySplitChar, pySplitCharAux, pyStrip, pyIsSpace, pyWordCount, pySplitWs,
    pySplitWsAux, pyLower, pyCharLower, pyUnique, pyUniqueAux, pyReprStrList,
    contactJsonLoop, expJsonLoop, dictLookup]
  norm_num

/-- C9 counterexample: on scenario A (`resume_json = {}`,
`raw_text = "John Doe Software Engineer"`) the report contains NO critical
issue for missing contact information — the location regex (two capitalized
words, case-insensitive) matches "John Doe", so the contact check finds one
contact category and emits a major, not critical, issue. -/
theorem scenarioA_has_no_critical_contact_issue :
    ¬ ∃ i ∈ (run_ats_checks scenarioA_regex_facts (some [])
        (some scenarioA_text)).issues,
      i.category = "contact" ∧ i.severity = "critical" := by
  rw [scenarioA_report_eq]
  decide

/-- C9 amended: on scenario A the overall score is below 50 (it is 25.0),
the confidence is low, the report has a critical issue — for unreadable/too
short text (category file_text_extractable), not for contact — and the
missing-contact finding appears as a major contact issue. -/
theorem scenarioA_report_facts :
    (run_ats_checks scenarioA_regex_facts (some [])
        (some scenarioA_text)).score < 50 ∧
    (run_ats_checks scenarioA_regex_facts (some [])
        (some scenarioA_text)).confidence = ATSConfidence.low ∧
    (∃ i ∈ (run_ats_checks scenarioA_regex_facts (some [])
        (some scenarioA_text)).issues,
      i.category = "file_text_extractable" ∧ i.severity = "critical") ∧
    (∃ i ∈ (run_ats_checks scenarioA_regex_facts (some [])
        (some scenarioA_text)).issues,
      i.category = "contact" ∧ i.severity = "major") := by
  rw [scenarioA_report_eq]
  refine ⟨by norm_num, rfl, ?_, ?_⟩
  · exact ⟨_, List.mem_cons_self _ _, rfl, rfl⟩
  · refine ⟨⟨"contact", "major",
      "Limited contact information. Found: [\x27location\x27]",
      "Add missing contact details (email, phone, location)"⟩, ?_, rfl, rfl⟩
    simp

/-- C5: for every expression containing one of the denylisted substrings
(matched case-insensitively), `calc_tool` fails with an error naming the
dangerous pattern it found, and no evaluation is attempted: the result is
the same for every evaluation oracle. -/
theorem calc_dangerous_pattern_rejected_without_evaluation
    (expression : String) (ev ev2 : String → EvalOutcome)
    (h : ∃ p ∈ dangerous_patterns, pyIn p (pyLower expression) = true) :
    (calc_tool ev expression).success = false ∧
    (calc_tool ev expression).output = "" ∧
    (∃ q ∈ dangerous_patterns, pyIn q (pyLower expression) = true ∧
      (calc_tool ev expression).error = dangerousErrorMsg q) ∧
    calc_tool ev expression = calc_tool ev2 expression := by
  obtain ⟨p, hp, hpin⟩ := h
  have hfind :
      (dangerous_patterns.find?
        (fun pattern => pyIn pattern (pyLower expression))).isSome := by
    rw [List.find?_isSome]
    exact ⟨p, hp, hpin⟩
  obtain ⟨q, hq⟩ := Option.isSome_iff_exists.mp hfind
  have hqmem : q ∈ dangerous_patterns := List.mem_of_find?_eq_some hq
  have hqin : pyIn q (pyLower expression) = true := by
    simpa using List.find?_some hq
  have hcalc : ∀ e : String → EvalOutcome,
      calc_tool e expression = ⟨false, "", dangerousErrorMsg q⟩ := by
    intro e
    unfold calc_tool
    rw [hq]
  rw [hcalc ev, hcalc ev2]
  exact ⟨rfl, rfl, ⟨q, hqmem, hqin, rfl⟩, rfl⟩

/-- Witness for C5 at the concrete expression "2 + IMPORT(3)": its
lowercasing contains the pattern "import", so the call fails with the
dangerous-pattern error whatever the evaluator would have returned. -/
theorem calc_dangerous_pattern_witness :
    (∃ p ∈ dangerous_patterns, pyIn p (pyLower "2 + IMPORT(3)") = true) ∧
    ((calc_tool (fun _ => EvalOutcome.zeroDivisionError) "2 + IMPORT(3)").success
        = false ∧
      (calc_tool (fun _ => EvalOutcome.zeroDivisionError) "2 + IMPORT(3)").output
        = "" ∧
      (∃ q ∈ dangerous_patterns, pyIn q (pyLower "2 + IMPORT(3)") = true ∧
        (calc_tool (fun _ => EvalOutcome.zeroDivisionError) "2 + IMPORT(3)").error
          = dangerousErrorMsg q) ∧
      calc_tool (fun _ => EvalOutcome.zeroDivisionError) "2 + IMPORT(3)" =
        calc_tool (fun _ => EvalOutcome.ok (PyNum.int 0)) "2 + IMPORT(3)") :=
  ⟨by decide,
   calc_dangerous_pattern_rejected_without_evaluation "2 + IMPORT(3)"
     (fun _ => EvalOutcome.zeroDivisionError)
     (fun _ => EvalOutcome.ok (PyNum.int 0)) (by decide)⟩

/-- Claim-side necessary condition distilled from the spec sentence for C4:
every character of the expression is an allowed character or a letter
(letters over-approximate the characters of any allow-listed function-name
occurrence).  An expression violating even this weaker condition certainly
contains a character the claim says must cause rejection. -/
def specCalcCharsPermitted (s : String) : Bool :=
  s.data.all (fun c => allowed_chars.contains c || c.isAlpha)

/-- C4 (code bug): the source defines `allowed_chars` and
`allowed_functions` under the comment "Sanitize input - only allow safe
characters" but never consults them.  The expression "5%2" contains "%",
which is neither an allowed character nor a character of any allow-listed
function name, yet `calc_tool` does not reject it: for every evaluation
oracle the call proceeds to evaluation, and with the oracle recording what
Python `eval` returns on "5%2" (the integer 1) the call succeeds with
output "1". -/
theorem calc_allowlist_never_enforced :
    specCalcCharsPermitted "5%2" = false ∧
    (∀ ev : String → EvalOutcome,
      calc_tool ev "5%2" = evalDispatch (ev "5%2")) ∧
    calc_tool (fun _ => EvalOutcome.ok (PyNum.int 1)) "5%2" =
      ⟨true, "1", ""⟩ := by
  refine ⟨by decide, ?_, by decide⟩
  intro ev
  unfold calc_tool
  rw [show dangerous_patterns.find?
      (fun pattern => pyIn pattern (pyLower "5%2")) = Option.none from by decide]

/-- C7: every `run_tool` call is resolved by exactly one of the five
outcomes (the result equals the rendering of the total five-way
classification), an unknown tool name yields the immediate
not-found-in-registry failure and a validation failure yields the immediate
invalid-parameters failure, in both cases with a result independent of the
worker-pool oracle (nothing is scheduled); no exception reaches the caller
since `run_tool` is a total function into results. -/
theorem run_tool_exactly_one_of_five_outcomes
    (sched sched2 : Scheduler) (name : String) (args : Args) (timeout : Nat) :
    run_tool sched name args timeout =
        runOutcomeResult name timeout (classifyRun sched name args) ∧
    ((assocLookup TOOLS name).isNone = true →
      run_tool sched name args timeout =
          ⟨false, "", "Tool \x27" ++ name ++ "\x27 not found in registry"⟩ ∧
        run_tool sched name args timeout = run_tool sched2 name args timeout) ∧
    ((assocLookup TOOLS name).isNone = false →
      validate_tool_parameters name args = false →
      run_tool sched name args timeout =
          ⟨false, "", "Invalid parameters for tool \x27" ++ name ++ "\x27"⟩ ∧
        run_tool sched name args timeout = run_tool sched2 name args timeout) := by
  refine ⟨?_, ?_, ?_⟩
  · unfold run_tool classifyRun runOutcomeResult
    split_ifs with h1 h2 <;>
      try rfl
    cases hs : sched name args with
    | finished c =>
        dsimp only
        split_ifs with h3 <;> rfl
    | timedOut => rfl
  · intro h
    constructor
    · unfold run_tool
      rw [if_pos h]
    · unfold run_tool
      rw [if_pos h, if_pos h]
  · intro h hv
    constructor
    · unfold run_tool
      rw [if_neg (by simp [h]), if_pos (by simp [hv])]
    · unfold run_tool
      rw [if_neg (by simp [h]), if_pos (by simp [hv]),
        if_neg (by simp [h]), if_pos (by simp [hv])]

/-- Witness for C7: the unknown tool name "nope" and an invalid call of
"calc" with no arguments both fail immediately, with the registry-miss and
invalid-parameters messages, independently of the scheduler. -/
theorem run_tool_outcomes_witness :
    ((assocLookup TOOLS "nope").isNone = true) ∧
    run_tool (fun _ _ => SchedOutcome.timedOut) "nope" [] 6 =
      ⟨false, "", "Tool \x27" ++ "nope" ++ "\x27 not found in registry"⟩ ∧
    ((assocLookup TOOLS "calc").isNone = false) ∧
    validate_tool_parameters "calc" [] = false ∧
    run_tool (fun _ _ => SchedOutcome.timedOut) "calc" [] 6 =
      ⟨false, "", "Invalid parameters for tool \x27" ++ "calc" ++ "\x27"⟩ :=
  ⟨by decide,
   ((run_tool_exactly_one_of_five_outcomes
       (fun _ _ => SchedOutcome.timedOut) (fun _ _ => SchedOutcome.timedOut)
       "nope" [] 6).2.1 (by decide)).1,
   by decide, by decide,
   ((run_tool_exactly_one_of_five_outcomes
       (fun _ _ => SchedOutcome.timedOut) (fun _ _ => SchedOutcome.timedOut)
       "calc" [] 6).2.2 (by decide) (by decide)).1⟩

/-- C6: a path that is absolute or contains ".." makes both file tools fail
with the traversal error before any filesystem access (the result is a
literal independent of the filesystem oracle); a path that resolves outside
the working directory makes them fail with the containment error, again
with no read or listing performed; in particular `read_file "../x"`,
`read_file "/etc/passwd"` and `list_files "../"` all fail this way for
every filesystem. -/
theorem file_tools_reject_path_traversal :
    (∀ (fs : FileSystem) (p : String),
      (os_path_isabs p = true ∨ pyIn ".." p = true) →
      read_file_tool fs p =
          ⟨false, "", "Path traversal not allowed. Use relative paths only."⟩ ∧
        list_files_tool fs p =
          ⟨false, "", "Path traversal not allowed. Use relative paths only."⟩) ∧
    (∀ (fs : FileSystem) (p : String),
      pyIn ".." p = false → os_path_isabs p = false →
      relativeToSucceeds (fs.resolve p) fs.cwd = false →
      read_file_tool fs p =
          ⟨false, "", "File must be in current directory or subdirectories"⟩ ∧
        list_files_tool fs p =
          ⟨false, "", "Directory must be in current directory or subdirectories"⟩) ∧
    (∀ fs : FileSystem,
      read_file_tool fs "../x" =
          ⟨false, "", "Path traversal not allowed. Use relative paths only."⟩ ∧
        read_file_tool fs "/etc/passwd" =
          ⟨false, "", "Path traversal not allowed. Use relative paths only."⟩ ∧
        list_files_tool fs "../" =
          ⟨false, "", "Path traversal not allowed. Use relative paths only."⟩) := by
  have hguard : ∀ (fs : FileSystem) (p : String),
      (os_path_isabs p = true ∨ pyIn ".." p = true) →
      read_file_tool fs p =
          ⟨false, "", "Path traversal not allowed. Use relative paths only."⟩ ∧
        list_files_tool fs p =
          ⟨false, "", "Path traversal not allowed. Use relative paths only."⟩ := by
    intro fs p h
    have hc : (pyIn ".." p || os_path_isabs p) = true := by
      rcases h with h | h <;> simp [h]
    constructor
    · unfold read_file_tool
      rw [if_pos hc]
    · unfold list_files_tool
      rw [if_pos hc]
  refine ⟨hguard, ?_, ?_⟩
  · intro fs p h1 h2 h3
    have hc : (pyIn ".." p || os_path_isabs p) = false := by simp [h1, h2]
    constructor
    · unfold read_file_tool
      rw [if_neg (by simp [hc]), if_pos (by simp [h3])]
    · unfold list_files_tool
      rw [if_neg (by simp [hc]), if_pos (by simp [h3])]
  · intro fs
    exact ⟨(hguard fs "../x" (Or.inr (by decide))).1,
      (hguard fs "/etc/passwd" (Or.inl (by decide))).1,
      (hguard fs "../" (Or.inr (by decide))).2⟩

/-- A trivial filesystem oracle used by witnesses. -/
def trivialFS : FileSystem :=
  ⟨"/w", fun _ => "/w", fun _ => false, fun _ => false, fun _ => false,
   fun _ => 0, fun _ => true, fun _ => [], fun _ => true, fun _ => []⟩

/-- A filesystem oracle that resolves every path outside the working
directory, for the containment part of the C6 witness. -/
def outsideFS : FileSystem :=
  ⟨"/w", fun _ => "/elsewhere/x", fun _ => true, fun _ => true, fun _ => true,
   fun _ => 0, fun _ => true, fun _ => [], fun _ => true, fun _ => []⟩

/-- Witness for C6: the three concrete traversal attempts of the claim fail
with the traversal error on a concrete filesystem oracle, and a relative
path resolving outside the working directory fails with the containment
error. -/
theorem file_tools_traversal_witness :
    (os_path_isabs "/etc/passwd" = true ∨ pyIn ".." "/etc/passwd" = true) ∧
    read_file_tool trivialFS "/etc/passwd" =
        ⟨false, "", "Path traversal not allowed. Use relative paths only."⟩ ∧
      read_file_tool trivialFS "../x" =
        ⟨false, "", "Path traversal not allowed. Use relative paths only."⟩ ∧
      list_files_tool trivialFS "../" =
        ⟨false, "", "Path traversal not allowed. Use relative paths only."⟩ ∧
      (pyIn ".." "x.txt" = false ∧ os_path_isabs "x.txt" = false ∧
        relativeToSucceeds (outsideFS.resolve "x.txt") outsideFS.cwd = false ∧
        read_file_tool outsideFS "x.txt" =
          ⟨false, "", "File must be in current directory or subdirectories"⟩) :=
  ⟨Or.inl (by decide),
   (file_tools_reject_path_traversal.1 trivialFS "/etc/passwd"
     (Or.inl (by decide))).1,
   (file_tools_reject_path_traversal.1 trivialFS "../x" (Or.inr (by decide))).1,
   (file_tools_reject_path_traversal.1 trivialFS "../" (Or.inr (by decide))).2,
   by decide, by decide, by decide,
   (file_tools_reject_path_traversal.2.1 outsideFS "x.txt" (by decide) (by decide)
     (by decide)).1⟩

/-- In `errors="ignore"` mode the UTF-8 decoder can never fail when given
enough fuel: no branch of the decoder returns an error under `ignore`, and
every step consumes at least one byte. -/
lemma utf8DecodeFuel_ignore_isSome :
    ∀ (fuel : Nat) (bs : List Nat), bs.length ≤ fuel →
      (utf8DecodeFuel true fuel bs).isSome = true := by
  intro fuel
  induction fuel with
  | zero =>
      intro bs h
      have hnil : bs = [] := List.eq_nil_of_length_eq_zero (Nat.le_zero.mp h)
      subst hnil
      rfl
  | succ n ih =>
      intro bs h
      cases bs with
      | nil => rfl
      | cons b rest =>
          have hrest : rest.length ≤ n := by
            simp only [List.length_cons] at h
            omega
          unfold utf8DecodeFuel
          simp only [eq_self_iff_true, if_true]
          split_ifs with h1 h2 h3 h4
          · simpa using ih rest hrest
          · cases rest with
            | nil => rfl
            | cons b2 rest2 =>
                have hrest2 : rest2.length ≤ n := by
                  simp only [List.length_cons] at hrest
                  omega
                dsimp only
                split_ifs with hb2
                · simpa using ih rest2 hrest2
                · simpa using ih (b2 :: rest2) hrest
          · cases rest with
            | nil => rfl
            | cons b2 rest2 =>
                cases rest2 with
                | nil => rfl
                | cons b3 rest3 =>
                    have hrest3 : rest3.length ≤ n := by
                      simp only [List.length_cons] at hrest
                      omega
                    dsimp only
                    split_ifs with hb23
                    · simpa using ih rest3 hrest3
                    · simpa using ih (b2 :: b3 :: rest3) hrest
          · cases rest with
            | nil => rfl
            | cons b2 rest2 =>
                cases rest2 with
                | nil => rfl
                | cons b3 rest3 =>
                    cases rest3 with
                    | nil => rfl
                    | cons b4 rest4 =>
                        have hrest4 : rest4.length ≤ n := by
                          simp only [List.length_cons] at hrest
                          omega
                        dsimp only
                        split_ifs with hb234
                        · simpa using ih rest4 hrest4
                        · simpa using ih (b2 :: b3 :: b4 :: rest4) hrest
          · simpa using ih rest hrest

/-- The `errors="ignore"` UTF-8 read never raises a decode error. -/
lemma utf8Decode_ignore_isSome (bs : List Nat) :
    (utf8Decode true bs).isSome = true :=
  utf8DecodeFuel_ignore_isSome bs.length bs le_rfl

/-- C10: for every filepath that passes the containment, existence,
regular-file, size and permission checks, the UTF-8 read with
`errors="ignore"` succeeds on every byte content, so `read_file_tool`
returns success with the tolerantly decoded content and the UTF-16
fallback and the invalid-characters failure are unreachable. -/
theorem read_file_decode_fallback_unreachable
    (fs : FileSystem) (p : String)
    (h1 : pyIn ".." p = false) (h2 : os_path_isabs p = false)
    (h3 : relativeToSucceeds (fs.resolve p) fs.cwd = true)
    (h4 : fs.pathExists (fs.resolve p) = true)
    (h5 : fs.pathIsFile (fs.resolve p) = true)
    (h6 : fs.fileSize (fs.resolve p) ≤ 1024 * 1024)
    (h7 : fs.readPermitted (fs.resolve p) = true) :
    ∃ cs, utf8Decode true (fs.readBytes (fs.resolve p)) = some cs ∧
      read_file_tool fs p = ⟨true, String.mk cs, ""⟩ := by
  obtain ⟨cs, hcs⟩ := Option.isSome_iff_exists.mp
    (utf8Decode_ignore_isSome (fs.readBytes (fs.resolve p)))
  refine ⟨cs, hcs, ?_⟩
  simp only [read_file_tool]
  rw [if_neg (by simp [h1, h2]), if_neg (by simp [h3]), if_neg (by simp [h4]),
    if_neg (by simp [h5]), if_neg (not_lt.mpr h6), if_neg (by simp [h7]), hcs]

/-- Filesystem oracle for the C10 witness: a 3-byte file whose content is
an invalid byte 0xFF followed by ASCII "AB". -/
def c10FS : FileSystem :=
  ⟨"/w", fun _ => "/w/a.txt", fun _ => true, fun _ => true, fun _ => false,
   fun _ => 3, fun _ => true, fun _ => [0xFF, 0x41, 0x42], fun _ => true,
   fun _ => []⟩

/-- Witness for C10: reading "a.txt" on `c10FS` passes every check and
succeeds with the tolerantly decoded content (the invalid leading byte is
dropped). -/
theorem read_file_decode_witness :
    pyIn ".." "a.txt" = false ∧ os_path_isabs "a.txt" = false ∧
    relativeToSucceeds (c10FS.resolve "a.txt") c10FS.cwd = true ∧
    c10FS.pathExists (c10FS.resolve "a.txt") = true ∧
    c10FS.pathIsFile (c10FS.resolve "a.txt") = true ∧
    c10FS.fileSize (c10FS.resolve "a.txt") ≤ 1024 * 1024 ∧
    c10FS.readPermitted (c10FS.resolve "a.txt") = true ∧
    ∃ cs, utf8Decode true (c10FS.readBytes (c10FS.resolve "a.txt")) = some cs ∧
      read_file_tool c10FS "a.txt" = ⟨true, String.mk cs, ""⟩ :=
  ⟨by decide, by decide, by decide, by decide, by decide, by decide, by decide,
   read_file_decode_fallback_unreachable c10FS "a.txt" (by decide) (by decide)
     (by decide) (by decide) (by decide) (by decide) (by decide)⟩

end CareerElevate
